import Mathlib

/-!
Shallow embedding of the `SqliteStorage` storage engine of `rosbag2_storage_sqlite3`
(`src/rosbag2_storage_sqlite3/include/rosbag2_storage_sqlite3/sqlite_storage.hpp`).
Only the class header is present in the repository; the member-function bodies
(`sqlite_storage.cpp`) are missing, so each operation below is modelled from the
specification description of that operation, over the state fields declared in
the header (with the default values declared in the header).  Timestamps are
`rcutils_time_point_value_t`, a signed 64-bit nanosecond count, modelled as `Int`;
payloads are opaque byte blobs, modelled as `List Nat`.
-/

/-- Enum `rosbag2_storage::storage_interfaces::IOFlag` (mode argument of `open`). -/
inductive IOFlag
  | READ_ONLY
  | READ_WRITE
  | APPEND
deriving DecidableEq, Repr

/-- Sort key of `rosbag2_storage::ReadOrder`. -/
inductive ReadOrderSortBy
  | ReceivedTimestamp
  | SentTimestamp
  | File
deriving DecidableEq, Repr

/-- Struct `rosbag2_storage::ReadOrder`: a sort key plus a direction flag.
The C++ struct defaults are `ReceivedTimestamp` and `reverse = false`. -/
structure ReadOrder where
  sort_by : ReadOrderSortBy := ReadOrderSortBy.ReceivedTimestamp
  reverse : Bool := false
deriving DecidableEq, Repr

/-- Struct `rosbag2_storage::StorageFilter`: the set of allowed topic names
(empty list means no filtering). -/
structure StorageFilter where
  topics : List String := []
deriving DecidableEq, Repr

/-- Struct `rosbag2_storage::TopicMetadata` (the slice the storage engine consumes). -/
structure TopicMetadata where
  name : String
  type : String
  serialization_format : String
deriving DecidableEq, Repr

/-- Struct `rosbag2_storage::SerializedBagMessage`: topic name, timestamp, payload blob. -/
structure SerializedBagMessage where
  topic_name : String
  time_stamp : Int
  serialized_data : List Nat
deriving DecidableEq, Repr

/-- Error taxonomy of the engine, from the error-handling design of the spec. -/
inductive StorageError
  | SchemaError
  | InvalidPresetError
  | UnknownTopicError
  | NoMoreMessagesError
  | RuntimeError
deriving DecidableEq, Repr

/-- A row of the persisted `topics` table: id, name, type, serialization format. -/
structure TopicRow where
  id : Nat
  name : String
  type : String
  serialization_format : String
deriving DecidableEq, Repr

/-- A row of the persisted `messages` table: id, topic id, timestamp, payload blob. -/
structure MessageRow where
  id : Nat
  topic_id : Nat
  timestamp : Int
  data : List Nat
deriving DecidableEq, Repr

/-- The database handle owned by the engine (`SqliteWrapper`), kept opaque
apart from the file it is connected to. -/
structure SqliteWrapper where
  uri : String
deriving DecidableEq, Repr

/-- A row produced by the read query.  The header declares the read result type
`ReadQueryResult = QueryResult<blob, time point, string, int>`, i.e. the query
selects the payload, the timestamp, the topic name and the message row id. -/
structure JoinedRow where
  data : List Nat
  timestamp : Int
  topic_name : String
  id : Nat
deriving DecidableEq, Repr

/-- The persisted content of a store file: the schema-info version
(`none` models the unset sentinel of a brand-new store), the topics table
and the messages table. -/
structure StoreFile where
  uri : String := ""
  schema_version : Option Int := none
  topics : List TopicRow := []
  messages : List MessageRow := []
deriving DecidableEq, Repr

/-- State of one `SqliteStorage` instance: the fields declared in the header
(`database_`, `topics_`, `seek_time_`, `seek_row_id_`, `read_order_`,
`storage_filter_`, `storage_mode_`, `db_schema_version_`), with the initial values
declared in the header, plus the persisted tables behind the connection and
the lazily prepared read statement (`read_statement_` / `message_result_`). -/
structure SqliteStorage where
  database_ : Option SqliteWrapper := none
  topics_table : List TopicRow := []
  messages_table : List MessageRow := []
  topics_ : List (String × Nat) := []
  next_topic_id : Nat := 1
  next_message_id : Nat := 1
  seek_time_ : Int := 0
  seek_row_id_ : Nat := 0
  read_order_ : ReadOrder := {}
  storage_filter_ : StorageFilter := {}
  storage_mode_ : IOFlag := IOFlag.READ_WRITE
  db_schema_version_ : Int := -1
  read_statement_ : Bool := false
  message_result_ : List JoinedRow := []
deriving DecidableEq, Repr

/-- Highest schema version this engine understands (`kDBSchemaVersion_ = 3`
in the header). -/
def kDBSchemaVersion_ : Int := 3

/-- Enum `PresetProfile` from the header. -/
inductive PresetProfile
  | Resilient
  | WriteOptimized
deriving DecidableEq, Repr

/-- Modelled from the spec: `SqliteStorage::parse_preset_profile`
(body in the missing `sqlite_storage.cpp`).  The preset profile strings are
exactly `"resilient"` and `"write_optimized"`; any other string is a
configuration error. -/
def parse_preset_profile (profile_string : String) : Except StorageError PresetProfile :=
  if profile_string = "resilient" then Except.ok PresetProfile.Resilient
  else if profile_string = "write_optimized" then Except.ok PresetProfile.WriteOptimized
  else Except.error StorageError.InvalidPresetError

/-- Lookup in the ephemeral topic-name → row-id cache (`topics_`). -/
def lookupTopicId : List (String × Nat) → String → Option Nat
  | [], _ => none
  | (n, i) :: rest, name => if n = name then some i else lookupTopicId rest name

/-- Default value of the `io_flag` argument of `SqliteStorage::open`
(header lines 53-56). -/
def open_default_io_flag : IOFlag := IOFlag.READ_WRITE

/-- Modelled from the spec: `SqliteStorage::open` / `initialize`
(bodies in the missing `sqlite_storage.cpp`).  Validates the persisted schema
version against the supported version of the engine — a store newer than the engine
is a hard-open failure (`SchemaError`) with no partial open state — otherwise
opens the connection, loads the tables, primes the topic cache and records the
io mode.  A brand-new store (unset version sentinel) is initialized to the
current version of the engine. -/
def SqliteStorage.openStore (file : StoreFile) (io_flag : IOFlag) :
    Except StorageError SqliteStorage :=
  match file.schema_version with
  | some v =>
    if kDBSchemaVersion_ < v then Except.error StorageError.SchemaError
    else Except.ok
      { database_ := some { uri := file.uri }
        topics_table := file.topics
        messages_table := file.messages
        topics_ := file.topics.map (fun r => (r.name, r.id))
        next_topic_id := file.topics.foldl (fun a r => max a r.id) 0 + 1
        next_message_id := file.messages.foldl (fun a m => max a m.id) 0 + 1
        storage_mode_ := io_flag
        db_schema_version_ := v }
  | none => Except.ok
      { database_ := some { uri := file.uri }
        topics_table := file.topics
        messages_table := file.messages
        topics_ := file.topics.map (fun r => (r.name, r.id))
        next_topic_id := file.topics.foldl (fun a r => max a r.id) 0 + 1
        next_message_id := file.messages.foldl (fun a m => max a m.id) 0 + 1
        storage_mode_ := io_flag
        db_schema_version_ := kDBSchemaVersion_ }

/-- Method `SqliteStorage::open` with the `io_flag` argument left at its default. -/
def SqliteStorage.openStoreDefault (file : StoreFile) : Except StorageError SqliteStorage :=
  SqliteStorage.openStore file open_default_io_flag

/-- Method `SqliteStorage::get_sqlite_database_wrapper` (header lines 96-100):
returns the database wrapper; throws `std::runtime_error` if `open()` has not
been called. -/
def SqliteStorage.get_sqlite_database_wrapper (s : SqliteStorage) :
    Except StorageError SqliteWrapper :=
  match s.database_ with
  | none => Except.error StorageError.RuntimeError
  | some db => Except.ok db

/-- Modelled from the spec: `SqliteStorage::create_topic`
(body in the missing `sqlite_storage.cpp`).  Inserts a new topic row unless one
with the same name exists (idempotent no-op on duplicate), then caches
name → row id. -/
def SqliteStorage.create_topic (s : SqliteStorage) (t : TopicMetadata) : SqliteStorage :=
  match s.topics_table.find? (fun r => r.name == t.name) with
  | some row => { s with topics_ := (t.name, row.id) :: s.topics_ }
  | none =>
    { s with
      topics_table := s.topics_table ++
        [{ id := s.next_topic_id, name := t.name, type := t.type,
           serialization_format := t.serialization_format }]
      topics_ := (t.name, s.next_topic_id) :: s.topics_
      next_topic_id := s.next_topic_id + 1 }

/-- Modelled from the spec: `SqliteStorage::write`
(body in the missing `sqlite_storage.cpp`).  Resolves the topic row id from the
cache (`UnknownTopicError` if the topic was never created) and inserts
(payload, timestamp, topic row id) as a fresh message row. -/
def SqliteStorage.write (s : SqliteStorage) (m : SerializedBagMessage) :
    Except StorageError SqliteStorage :=
  match lookupTopicId s.topics_ m.topic_name with
  | none => Except.error StorageError.UnknownTopicError
  | some tid => Except.ok
    { s with
      messages_table := s.messages_table ++
        [{ id := s.next_message_id, topic_id := tid,
           timestamp := m.time_stamp, data := m.serialized_data }]
      next_message_id := s.next_message_id + 1 }

/-- Topic allow-list predicate of the read query: the allow-list is applied as
an `IN` predicate, and an empty allow-list means all topics. -/
def topicAllowed (f : StorageFilter) (r : JoinedRow) : Bool :=
  f.topics.isEmpty || f.topics.contains r.topic_name

/-- Seek predicate of the read query (forward order): the query starts at the
first message with timestamp at or after the seek target, tie-broken by row id:
`(timestamp = seek_time AND id >= seek_row_id) OR timestamp > seek_time`. -/
def seekAllowedForward (seek_time : Int) (seek_row_id : Nat) (r : JoinedRow) : Bool :=
  (r.timestamp == seek_time && seek_row_id ≤ r.id) || seek_time < r.timestamp

/-- Seek predicate of the read query (reverse order): the query starts at the
first message with timestamp at or before the seek target:
`(timestamp = seek_time AND id <= seek_row_id) OR timestamp < seek_time`. -/
def seekAllowedReverse (seek_time : Int) (seek_row_id : Nat) (r : JoinedRow) : Bool :=
  (r.timestamp == seek_time && r.id ≤ seek_row_id) || r.timestamp < seek_time

/-- Seek predicate for the current direction of the instance. -/
def SqliteStorage.seekAllowed (s : SqliteStorage) (r : JoinedRow) : Bool :=
  if s.read_order_.reverse then seekAllowedReverse s.seek_time_ s.seek_row_id_ r
  else seekAllowedForward s.seek_time_ s.seek_row_id_ r

/-- Forward replay order on query rows: `ORDER BY timestamp ASC, id ASC` —
the secondary key on row id makes the order total among same-timestamp rows. -/
def fwdLE (a b : JoinedRow) : Prop :=
  a.timestamp < b.timestamp ∨ (a.timestamp = b.timestamp ∧ a.id ≤ b.id)

/-- Reverse replay order on query rows: `ORDER BY timestamp DESC, id DESC`. -/
def revLE (a b : JoinedRow) : Prop :=
  b.timestamp < a.timestamp ∨ (a.timestamp = b.timestamp ∧ b.id ≤ a.id)

instance : DecidableRel fwdLE := fun a b => by unfold fwdLE; infer_instance

instance : DecidableRel revLE := fun a b => by unfold revLE; infer_instance

instance : IsTotal JoinedRow fwdLE where
  total a b := by
    unfold fwdLE
    rcases lt_trichotomy a.timestamp b.timestamp with h | h | h
    · exact Or.inl (Or.inl h)
    · rcases Nat.le_total a.id b.id with h2 | h2
      · exact Or.inl (Or.inr ⟨h, h2⟩)
      · exact Or.inr (Or.inr ⟨h.symm, h2⟩)
    · exact Or.inr (Or.inl h)

instance : IsTrans JoinedRow fwdLE where
  trans a b c hab hbc := by
    unfold fwdLE at *
    rcases hab with h1 | ⟨h1, h1i⟩
    · rcases hbc with h2 | ⟨h2, _⟩
      · exact Or.inl (h1.trans h2)
      · exact Or.inl (h2 ▸ h1)
    · rcases hbc with h2 | ⟨h2, h2i⟩
      · exact Or.inl (h1 ▸ h2)
      · exact Or.inr ⟨h1.trans h2, h1i.trans h2i⟩

instance : IsTotal JoinedRow revLE where
  total a b := by
    unfold revLE
    rcases lt_trichotomy a.timestamp b.timestamp with h | h | h
    · exact Or.inr (Or.inl h)
    · rcases Nat.le_total a.id b.id with h2 | h2
      · exact Or.inr (Or.inr ⟨h.symm, h2⟩)
      · exact Or.inl (Or.inr ⟨h, h2⟩)
    · exact Or.inl (Or.inl h)

instance : IsTrans JoinedRow revLE where
  trans a b c hab hbc := by
    unfold revLE at *
    rcases hab with h1 | ⟨h1, h1i⟩
    · rcases hbc with h2 | ⟨h2, _⟩
      · exact Or.inl (h2.trans h1)
      · exact Or.inl (h2 ▸ h1)
    · rcases hbc with h2 | ⟨h2, h2i⟩
      · exact Or.inl (h1 ▸ h2)
      · exact Or.inr ⟨h1.trans h2, h2i.trans h1i⟩

/-- The join of the messages table with the topics table on
`messages.topic_id = topics.id`, selecting payload, timestamp, topic name and
message row id (the column tuple of `ReadQueryResult`). -/
def joinRows (s : SqliteStorage) : List JoinedRow :=
  s.messages_table.filterMap (fun m =>
    (s.topics_table.find? (fun t => t.id == m.topic_id)).map (fun t =>
      { data := m.data, timestamp := m.timestamp, topic_name := t.name, id := m.id }))

/-- Modelled from the spec: the read query built by `prepare_for_reading` in the
missing `sqlite_storage.cpp` — a single statement joining messages to topics,
applying the topic allow-list, the seek predicate, and the order clause
`ORDER BY timestamp {ASC|DESC}, id {ASC|DESC}`. -/
def generateQuery (s : SqliteStorage) : List JoinedRow :=
  if s.read_order_.reverse then
    List.insertionSort revLE
      ((joinRows s).filter (fun r => topicAllowed s.storage_filter_ r && s.seekAllowed r))
  else
    List.insertionSort fwdLE
      ((joinRows s).filter (fun r => topicAllowed s.storage_filter_ r && s.seekAllowed r))

/-- Lazily builds and caches the query result exactly once per state generation
(no-op when a prepared read statement is already in flight). -/
def SqliteStorage.prepare_for_reading (s : SqliteStorage) : SqliteStorage :=
  if s.read_statement_ then s
  else { s with message_result_ := generateQuery s, read_statement_ := true }

/-- Materialize a query row into a message record (payload copied out). -/
def rowToMessage (r : JoinedRow) : SerializedBagMessage :=
  { topic_name := r.topic_name, time_stamp := r.timestamp, serialized_data := r.data }

/-- Method `SqliteStorage::has_next`: peeks whether a row remains, preparing the query
first if needed; consumes nothing. -/
def SqliteStorage.has_next (s : SqliteStorage) : Bool × SqliteStorage :=
  let s1 := s.prepare_for_reading
  (!s1.message_result_.isEmpty, s1)

/-- Method `SqliteStorage::read_next`: fails with `NoMoreMessagesError` when nothing
remains; otherwise materializes the current row into a message and advances the
cursor. -/
def SqliteStorage.read_next (s : SqliteStorage) :
    Except StorageError (SerializedBagMessage × SqliteStorage) :=
  let s1 := s.prepare_for_reading
  match s1.message_result_ with
  | [] => Except.error StorageError.NoMoreMessagesError
  | r :: rest => Except.ok (rowToMessage r, { s1 with message_result_ := rest })

/-- The full sequence of messages a read session yields from state `s`:
the prepared query result, materialized row by row. -/
def replay (s : SqliteStorage) : List SerializedBagMessage :=
  (s.prepare_for_reading).message_result_.map rowToMessage

/-- Query `SELECT max(id) FROM messages` (0 when the table is empty). -/
def SqliteStorage.get_last_rowid (s : SqliteStorage) : Nat :=
  s.messages_table.foldl (fun a m => max a m.id) 0

/-- Modelled from the spec: `SqliteStorage::seek`
(body in the missing `sqlite_storage.cpp`).  Records the seek target and resets
the row-id tie-break bound (0 going forward, the last row id going in reverse so
every same-timestamp row is included), and invalidates the in-flight cursor. -/
def SqliteStorage.seek (s : SqliteStorage) (timestamp : Int) : SqliteStorage :=
  { s with
    seek_time_ := timestamp
    seek_row_id_ := if s.read_order_.reverse then s.get_last_rowid else 0
    read_statement_ := false }

/-- Modelled from the spec: `SqliteStorage::set_filter`
(body in the missing `sqlite_storage.cpp`).  Replaces the active allow-list and
invalidates any in-flight cursor. -/
def SqliteStorage.set_filter (s : SqliteStorage) (f : StorageFilter) : SqliteStorage :=
  { s with storage_filter_ := f, read_statement_ := false }

/-- Modelled from the spec: `SqliteStorage::reset_filter`. -/
def SqliteStorage.reset_filter (s : SqliteStorage) : SqliteStorage :=
  s.set_filter {}

/-- Modelled from the spec: `SqliteStorage::set_read_order`
(body in the missing `sqlite_storage.cpp`).  The store satisfies
forward-by-received-timestamp and reverse-by-received-timestamp; an order it
cannot satisfy returns `false` and leaves the state untouched, a supported one
returns `true`, records the order and invalidates the in-flight cursor. -/
def SqliteStorage.set_read_order (s : SqliteStorage) (o : ReadOrder) :
    Bool × SqliteStorage :=
  match o.sort_by with
  | ReadOrderSortBy.ReceivedTimestamp =>
    (true, { s with read_order_ := o, read_statement_ := false })
  | _ => (false, s)

/-! ## Helper lemmas -/

/-- Membership in the generated query, unfolded to the join, the allow-list
predicate and the seek predicate. -/
theorem mem_generateQuery {s : SqliteStorage} {r : JoinedRow} :
    r ∈ generateQuery s ↔
      r ∈ joinRows s ∧ topicAllowed s.storage_filter_ r = true ∧ s.seekAllowed r = true := by
  unfold generateQuery
  by_cases h : s.read_order_.reverse <;>
    simp [h, List.mem_insertionSort, List.mem_filter, Bool.and_eq_true]

/-- When no read statement is in flight, a read session materializes exactly
the freshly generated query. -/
theorem replay_of_not_prepared {s : SqliteStorage} (h : s.read_statement_ = false) :
    replay s = (generateQuery s).map rowToMessage := by
  unfold replay SqliteStorage.prepare_for_reading
  rw [h]
  simp

/-- An initial accumulator never exceeds the running maximum of row ids. -/
theorem le_foldl_max_init (l : List MessageRow) (init : Nat) :
    init ≤ l.foldl (fun a m => max a m.id) init := by
  induction l generalizing init with
  | nil => exact Nat.le_refl _
  | cons m l ih => exact Nat.le_trans (Nat.le_max_left _ _) (ih (max init m.id))

/-- Every row id in the table is bounded by the running maximum. -/
theorem mem_le_foldl_max {l : List MessageRow} {m : MessageRow} (h : m ∈ l) (init : Nat) :
    m.id ≤ l.foldl (fun a x => max a x.id) init := by
  induction l generalizing init with
  | nil => cases h
  | cons a l ih =>
    rcases List.mem_cons.mp h with rfl | h2
    · exact Nat.le_trans (Nat.le_max_right _ _) (le_foldl_max_init l _)
    · exact ih h2 _

/-- Every id of a joined row is at most `get_last_rowid`. -/
theorem mem_joinRows_id_le {s : SqliteStorage} {r : JoinedRow} (h : r ∈ joinRows s) :
    r.id ≤ s.get_last_rowid := by
  unfold joinRows at h
  rw [List.mem_filterMap] at h
  obtain ⟨m, hm, hf⟩ := h
  cases hfind : s.topics_table.find? (fun t => t.id == m.topic_id) with
  | none => rw [hfind] at hf; cases hf
  | some t =>
    rw [hfind] at hf
    cases hf
    exact mem_le_foldl_max hm 0

/-- Lemma: `find?` skips over elements for which nothing matches. -/
theorem find?_append_of_none {α : Type} (p : α → Bool) (l1 l2 : List α)
    (h : l1.find? p = none) : (l1 ++ l2).find? p = l2.find? p := by
  induction l1 with
  | nil => rfl
  | cons a l ih =>
    cases hp : p a with
    | true => rw [List.find?_cons_of_pos _ hp] at h; cases h
    | false =>
      rw [List.find?_cons_of_neg _ (by simp [hp])] at h
      rw [List.cons_append, List.find?_cons_of_neg _ (by simp [hp])]
      exact ih h

/-- Decidable equality of engine results, used to evaluate concrete runs. -/
def exceptDecEq {ε α : Type} [DecidableEq ε] [DecidableEq α] : DecidableEq (Except ε α)
  | Except.ok a, Except.ok b =>
    if h : a = b then isTrue (by rw [h])
    else isFalse (fun hc => by cases hc; exact h rfl)
  | Except.ok _, Except.error _ => isFalse (fun hc => Except.noConfusion hc)
  | Except.error _, Except.ok _ => isFalse (fun hc => Except.noConfusion hc)
  | Except.error e, Except.error f =>
    if h : e = f then isTrue (by rw [h])
    else isFalse (fun hc => by cases hc; exact h rfl)

instance {ε α : Type} [DecidableEq ε] [DecidableEq α] : DecidableEq (Except ε α) :=
  exceptDecEq

/-! ## Claim theorems -/

/-- C10: when `open` is called without an explicit `io_flag` argument the store
is opened in `READ_WRITE` mode: the parameter defaults to `IOFlag::READ_WRITE`,
matching the default value of the internal `storage_mode_` field, and an open
with the defaulted flag records `READ_WRITE` as the storage mode. -/
theorem open_defaults_to_read_write :
    open_default_io_flag = IOFlag.READ_WRITE
    ∧ ({} : SqliteStorage).storage_mode_ = IOFlag.READ_WRITE
    ∧ open_default_io_flag = ({} : SqliteStorage).storage_mode_
    ∧ (∀ file : StoreFile,
        SqliteStorage.openStoreDefault file = SqliteStorage.openStore file IOFlag.READ_WRITE)
    ∧ (∀ (file : StoreFile) (s1 : SqliteStorage),
        SqliteStorage.openStoreDefault file = Except.ok s1 →
        s1.storage_mode_ = IOFlag.READ_WRITE) := by
  refine ⟨rfl, rfl, rfl, fun _ => rfl, ?_⟩
  intro file s1 h
  cases hv : file.schema_version with
  | none =>
    simp only [SqliteStorage.openStoreDefault, SqliteStorage.openStore, hv] at h
    obtain rfl := Except.ok.inj h
    rfl
  | some v =>
    simp only [SqliteStorage.openStoreDefault, SqliteStorage.openStore, hv] at h
    by_cases hlt : kDBSchemaVersion_ < v
    · rw [if_pos hlt] at h; cases h
    · rw [if_neg hlt] at h
      obtain rfl := Except.ok.inj h
      rfl

/-- C10 witness: opening a brand-new store file with the defaulted flag yields
a state whose storage mode is `READ_WRITE`. -/
theorem open_defaults_to_read_write_witness :
    ({ database_ := some { uri := "bag.db3" }, db_schema_version_ := kDBSchemaVersion_ } :
        SqliteStorage).storage_mode_ = IOFlag.READ_WRITE :=
  open_defaults_to_read_write.2.2.2.2 { uri := "bag.db3" }
    { database_ := some { uri := "bag.db3" }, db_schema_version_ := kDBSchemaVersion_ }
    (by decide)

/-- C7: `parse_preset_profile` accepts exactly the strings `"resilient"`
(mapped to `PresetProfile::Resilient`) and `"write_optimized"` (mapped to
`PresetProfile::WriteOptimized`); every other string fails with the
invalid-preset configuration error. -/
theorem parse_preset_profile_spec :
    parse_preset_profile "resilient" = Except.ok PresetProfile.Resilient
    ∧ parse_preset_profile "write_optimized" = Except.ok PresetProfile.WriteOptimized
    ∧ ∀ str : String, str ≠ "resilient" → str ≠ "write_optimized" →
        parse_preset_profile str = Except.error StorageError.InvalidPresetError := by
  refine ⟨by decide, by decide, ?_⟩
  intro str h1 h2
  unfold parse_preset_profile
  rw [if_neg h1, if_neg h2]

/-- C7 witness: the two canonical spellings parse and a third string fails. -/
theorem parse_preset_profile_spec_witness :
    parse_preset_profile "resilient" = Except.ok PresetProfile.Resilient
    ∧ parse_preset_profile "write_optimized" = Except.ok PresetProfile.WriteOptimized
    ∧ parse_preset_profile "turbo" = Except.error StorageError.InvalidPresetError :=
  ⟨parse_preset_profile_spec.1, parse_preset_profile_spec.2.1,
    parse_preset_profile_spec.2.2 "turbo" (by decide) (by decide)⟩

/-- C9: calling `get_sqlite_database_wrapper` before `open()` throws a runtime
error; after a successful open it returns the underlying database wrapper. -/
theorem get_sqlite_database_wrapper_spec (s : SqliteStorage) :
    (s.database_ = none →
      s.get_sqlite_database_wrapper = Except.error StorageError.RuntimeError)
    ∧ (∀ w : SqliteWrapper, s.database_ = some w →
        s.get_sqlite_database_wrapper = Except.ok w)
    ∧ (∀ (file : StoreFile) (flag : IOFlag) (s1 : SqliteStorage),
        SqliteStorage.openStore file flag = Except.ok s1 →
        s1.get_sqlite_database_wrapper = Except.ok { uri := file.uri }) := by
  refine ⟨?_, ?_, ?_⟩
  · intro h
    unfold SqliteStorage.get_sqlite_database_wrapper
    rw [h]
  · intro w h
    unfold SqliteStorage.get_sqlite_database_wrapper
    rw [h]
  · intro file flag s1 h
    cases hv : file.schema_version with
    | none =>
      simp only [SqliteStorage.openStore, hv] at h
      obtain rfl := Except.ok.inj h
      rfl
    | some v =>
      simp only [SqliteStorage.openStore, hv] at h
      by_cases hlt : kDBSchemaVersion_ < v
      · rw [if_pos hlt] at h; cases h
      · rw [if_neg hlt] at h
        obtain rfl := Except.ok.inj h
        rfl

/-- C9 witness: a default (never-opened) instance fails with the runtime
error, and an instance holding a wrapper returns it. -/
theorem get_sqlite_database_wrapper_spec_witness :
    ({} : SqliteStorage).get_sqlite_database_wrapper
      = Except.error StorageError.RuntimeError
    ∧ ({ database_ := some { uri := "bag.db3" } } : SqliteStorage).get_sqlite_database_wrapper
      = Except.ok { uri := "bag.db3" } :=
  ⟨(get_sqlite_database_wrapper_spec {}).1 rfl,
    (get_sqlite_database_wrapper_spec _).2.1 _ rfl⟩

/-- C5: opening a store whose persisted schema version is strictly greater
than the supported version of the engine (`kDBSchemaVersion_ = 3`) fails with the
schema error; the result carries no opened state. -/
theorem open_schema_guard (file : StoreFile) (io_flag : IOFlag) (v : Int)
    (hv : file.schema_version = some v) (hgt : kDBSchemaVersion_ < v) :
    SqliteStorage.openStore file io_flag = Except.error StorageError.SchemaError := by
  simp only [SqliteStorage.openStore, hv]
  rw [if_pos hgt]

/-- C5 witness: a store persisted at schema version 4 fails to open. -/
theorem open_schema_guard_witness :
    ({ schema_version := some 4 } : StoreFile).schema_version = some 4
    ∧ kDBSchemaVersion_ < 4
    ∧ SqliteStorage.openStore { schema_version := some 4 } IOFlag.READ_ONLY
        = Except.error StorageError.SchemaError :=
  ⟨rfl, by decide, open_schema_guard { schema_version := some 4 } IOFlag.READ_ONLY 4 rfl (by decide)⟩

/-- C8: `set_read_order` returns `false` without an exception and leaves the
whole reader state untouched when the requested order cannot be satisfied;
for a supported order it returns `true`, records the order and invalidates the
in-flight cursor. -/
theorem set_read_order_contract (s : SqliteStorage) (o : ReadOrder) :
    (o.sort_by = ReadOrderSortBy.ReceivedTimestamp →
      s.set_read_order o = (true, { s with read_order_ := o, read_statement_ := false }))
    ∧ (o.sort_by ≠ ReadOrderSortBy.ReceivedTimestamp →
      s.set_read_order o = (false, s)) := by
  constructor
  · intro h
    unfold SqliteStorage.set_read_order
    rw [h]
  · intro h
    unfold SqliteStorage.set_read_order
    cases ho : o.sort_by with
    | ReceivedTimestamp => exact absurd ho h
    | SentTimestamp => rfl
    | File => rfl

/-- C8 witness: reverse-by-received-timestamp is accepted and invalidates the
cursor; file order is refused and the state (order included) is unchanged. -/
theorem set_read_order_contract_witness :
    ({ read_statement_ := true } : SqliteStorage).set_read_order
        { sort_by := ReadOrderSortBy.ReceivedTimestamp, reverse := true }
      = (true, { read_order_ := { sort_by := ReadOrderSortBy.ReceivedTimestamp, reverse := true },
                 read_statement_ := false })
    ∧ ({ read_statement_ := true } : SqliteStorage).set_read_order
        { sort_by := ReadOrderSortBy.File }
      = (false, { read_statement_ := true }) :=
  ⟨(set_read_order_contract { read_statement_ := true } _).1 rfl,
    (set_read_order_contract { read_statement_ := true } _).2 (by decide)⟩

/-- Unfolding of `create_topic` when no row with the name of the topic exists. -/
theorem create_topic_of_find_none (s : SqliteStorage) (t : TopicMetadata)
    (h : s.topics_table.find? (fun r => r.name == t.name) = none) :
    s.create_topic t =
      { s with
        topics_table := s.topics_table ++
          [{ id := s.next_topic_id, name := t.name, type := t.type,
             serialization_format := t.serialization_format }]
        topics_ := (t.name, s.next_topic_id) :: s.topics_
        next_topic_id := s.next_topic_id + 1 } := by
  simp only [SqliteStorage.create_topic, h]

/-- Unfolding of `create_topic` when a row with the name of the topic already
exists: only the name → row-id cache is refreshed. -/
theorem create_topic_of_find_some (s : SqliteStorage) (t : TopicMetadata) (row : TopicRow)
    (h : s.topics_table.find? (fun r => r.name == t.name) = some row) :
    s.create_topic t = { s with topics_ := (t.name, row.id) :: s.topics_ } := by
  simp only [SqliteStorage.create_topic, h]

/-- C6: calling `create_topic` twice with the same topic on a store where the
topic is not yet present is idempotent: the second call changes no table row,
exactly one topic row with that name exists, its row id is the one the first
call assigned (`s.next_topic_id`), and a subsequent write to the topic inserts
a message resolving to that original row id. -/
theorem create_topic_idempotent (s : SqliteStorage) (t : TopicMetadata)
    (hfresh : s.topics_table.find? (fun r => r.name == t.name) = none) :
    ((s.create_topic t).create_topic t).topics_table = (s.create_topic t).topics_table
    ∧ (((s.create_topic t).create_topic t).topics_table.filter
        (fun r => r.name == t.name)).length = 1
    ∧ lookupTopicId ((s.create_topic t).create_topic t).topics_ t.name = some s.next_topic_id
    ∧ lookupTopicId (s.create_topic t).topics_ t.name = some s.next_topic_id
    ∧ ∀ m : SerializedBagMessage, m.topic_name = t.name →
        ((s.create_topic t).create_topic t).write m = Except.ok
          { (s.create_topic t).create_topic t with
            messages_table := ((s.create_topic t).create_topic t).messages_table ++
              [{ id := ((s.create_topic t).create_topic t).next_message_id,
                 topic_id := s.next_topic_id,
                 timestamp := m.time_stamp,
                 data := m.serialized_data }]
            next_message_id := ((s.create_topic t).create_topic t).next_message_id + 1 } := by
  have h1 := create_topic_of_find_none s t hfresh
  have hp : (fun r : TopicRow => r.name == t.name)
      { id := s.next_topic_id, name := t.name, type := t.type,
        serialization_format := t.serialization_format } = true := by
    simp
  have hfind2 : ((s.create_topic t).topics_table).find? (fun r => r.name == t.name)
      = some { id := s.next_topic_id, name := t.name, type := t.type,
               serialization_format := t.serialization_format } := by
    rw [h1]
    show (s.topics_table ++ [_]).find? _ = _
    rw [find?_append_of_none _ _ _ hfresh]
    exact List.find?_cons_of_pos _ hp
  have h2 := create_topic_of_find_some (s.create_topic t) t _ hfind2
  have hlook2 : lookupTopicId ((s.create_topic t).create_topic t).topics_ t.name
      = some s.next_topic_id := by
    rw [h2]
    simp [lookupTopicId]
  refine ⟨?_, ?_, hlook2, ?_, ?_⟩
  · rw [h2]
  · rw [h2]
    show ((s.create_topic t).topics_table.filter _).length = 1
    rw [h1]
    show ((s.topics_table ++ [_]).filter _).length = 1
    rw [List.filter_append]
    have hnil : s.topics_table.filter (fun r => r.name == t.name) = [] := by
      rw [List.filter_eq_nil_iff]
      intro a ha
      exact List.find?_eq_none.mp hfresh a ha
    rw [hnil]
    simp [hp]
  · rw [h1]
    simp [lookupTopicId]
  · intro m hm
    simp only [SqliteStorage.write, hm, hlook2]

/-- Example topic used by the concrete runs below. -/
def exTopicA : TopicMetadata :=
  { name := "/scan", type := "sensor_msgs/LaserScan", serialization_format := "cdr" }

/-- C6 witness: creating `"/scan"` twice on a fresh store leaves one topic row
whose id is the one the first call assigned. -/
theorem create_topic_idempotent_witness :
    (({} : SqliteStorage).topics_table.find? (fun r => r.name == exTopicA.name) = none)
    ∧ ((((({} : SqliteStorage).create_topic exTopicA).create_topic exTopicA).topics_table.filter
        (fun r => r.name == exTopicA.name)).length = 1)
    ∧ lookupTopicId ((({} : SqliteStorage).create_topic exTopicA).create_topic exTopicA).topics_
        exTopicA.name = some ({} : SqliteStorage).next_topic_id :=
  ⟨rfl, (create_topic_idempotent {} exTopicA rfl).2.1,
    (create_topic_idempotent {} exTopicA rfl).2.2.1⟩

/-- C4: with allow-list `{A}` the replay query never returns a row of any other
topic; with an empty allow-list the topic predicate is dropped entirely (all
topics are returned, subject only to the seek predicate and the order). -/
theorem filter_allowlist (s : SqliteStorage) (A : String) :
    (s.storage_filter_.topics = [A] →
      ∀ r ∈ generateQuery s, r.topic_name = A)
    ∧ (s.storage_filter_.topics = [] →
      generateQuery s =
        (if s.read_order_.reverse then
          List.insertionSort revLE ((joinRows s).filter (fun r => s.seekAllowed r))
        else
          List.insertionSort fwdLE ((joinRows s).filter (fun r => s.seekAllowed r)))) := by
  constructor
  · intro h r hr
    obtain ⟨_, hta, _⟩ := mem_generateQuery.mp hr
    simp only [topicAllowed, h] at hta
    simpa using hta
  · intro h
    have hco : (fun r => topicAllowed s.storage_filter_ r && s.seekAllowed r)
        = fun r => s.seekAllowed r := by
      funext r
      simp [topicAllowed, h]
    unfold generateQuery
    rw [hco]

/-- Store with two topics whose messages interleave chronologically, read with
allow-list `{"/a"}`. -/
def exStoreMix : SqliteStorage :=
  { database_ := some { uri := "bag.db3" }
    topics_table := [{ id := 1, name := "/a", type := "A", serialization_format := "cdr" },
                     { id := 2, name := "/b", type := "B", serialization_format := "cdr" }]
    messages_table := [{ id := 1, topic_id := 1, timestamp := 1, data := [1] },
                       { id := 2, topic_id := 2, timestamp := 2, data := [2] },
                       { id := 3, topic_id := 1, timestamp := 3, data := [3] }]
    topics_ := [("/a", 1), ("/b", 2)]
    next_topic_id := 3
    next_message_id := 4
    storage_filter_ := { topics := ["/a"] }
    db_schema_version_ := 3 }

/-- C4 witness: with allow-list `{"/a"}` every replayed row belongs to `"/a"`,
even though a `"/b"` message lies chronologically between two `"/a"` ones. -/
theorem filter_allowlist_witness :
    exStoreMix.storage_filter_.topics = ["/a"]
    ∧ ∀ r ∈ generateQuery exStoreMix, r.topic_name = "/a" :=
  ⟨rfl, (filter_allowlist exStoreMix "/a").1 rfl⟩

/-- C2: forward-order replay is sorted by (timestamp, row id): an earlier
timestamp is always replayed first, equal timestamps are tie-broken by row id
into a strict total order, and reading the same committed store state twice
yields the same sequence. -/
theorem forward_replay_ordered (s : SqliteStorage) (hfwd : s.read_order_.reverse = false)
    (hids : (generateQuery s).Pairwise (fun a b => a.id ≠ b.id)) :
    (∀ i j : Fin (generateQuery s).length, i < j →
      ((generateQuery s).get i).timestamp < ((generateQuery s).get j).timestamp
      ∨ (((generateQuery s).get i).timestamp = ((generateQuery s).get j).timestamp
         ∧ ((generateQuery s).get i).id < ((generateQuery s).get j).id))
    ∧ (∀ i j : Fin (generateQuery s).length,
        ((generateQuery s).get i).timestamp < ((generateQuery s).get j).timestamp → i < j)
    ∧ (∀ (file : StoreFile) (flag : IOFlag) (sa sb : SqliteStorage),
        SqliteStorage.openStore file flag = Except.ok sa →
        SqliteStorage.openStore file flag = Except.ok sb →
        replay sa = replay sb) := by
  have hsorted : (generateQuery s).Sorted fwdLE := by
    unfold generateQuery
    rw [hfwd]
    simp only [Bool.false_eq_true, if_false]
    exact List.sorted_insertionSort fwdLE _
  have hpw := List.pairwise_iff_get.mp hsorted
  have hid := List.pairwise_iff_get.mp hids
  refine ⟨?_, ?_, ?_⟩
  · intro i j hij
    rcases hpw i j hij with h | ⟨he, hle⟩
    · exact Or.inl h
    · exact Or.inr ⟨he, Nat.lt_of_le_of_ne hle (hid i j hij)⟩
  · intro i j hts
    by_contra hnot
    rcases lt_or_eq_of_le (not_lt.mp hnot) with hji | hji
    · rcases hpw j i hji with h | ⟨he, _⟩
      · exact absurd (h.trans hts) (lt_irrefl _)
      · rw [he] at hts
        exact absurd hts (lt_irrefl _)
    · rw [hji] at hts
      exact absurd hts (lt_irrefl _)
  · intro file flag sa sb ha hb
    obtain rfl := Except.ok.inj (ha.symm.trans hb)
    rfl

/-- Store holding messages with a timestamp tie (row ids 1 and 3 both at
timestamp 5, row id 2 at timestamp 3). -/
def exStoreTies : SqliteStorage :=
  { database_ := some { uri := "bag.db3" }
    topics_table := [{ id := 1, name := "/a", type := "A", serialization_format := "cdr" }]
    messages_table := [{ id := 1, topic_id := 1, timestamp := 5, data := [1] },
                       { id := 2, topic_id := 1, timestamp := 3, data := [2] },
                       { id := 3, topic_id := 1, timestamp := 5, data := [3] }]
    topics_ := [("/a", 1)]
    next_topic_id := 2
    next_message_id := 4
    db_schema_version_ := 3 }

/-- C2 witness: on the concrete tied store, forward replay is strictly ordered
by (timestamp, row id). -/
theorem forward_replay_ordered_witness :
    exStoreTies.read_order_.reverse = false
    ∧ (generateQuery exStoreTies).Pairwise (fun a b => a.id ≠ b.id)
    ∧ (∀ i j : Fin (generateQuery exStoreTies).length, i < j →
        ((generateQuery exStoreTies).get i).timestamp
          < ((generateQuery exStoreTies).get j).timestamp
        ∨ (((generateQuery exStoreTies).get i).timestamp
              = ((generateQuery exStoreTies).get j).timestamp
           ∧ ((generateQuery exStoreTies).get i).id
              < ((generateQuery exStoreTies).get j).id)) :=
  ⟨rfl, by decide, (forward_replay_ordered exStoreTies rfl (by decide)).1⟩

/-- After a forward seek the active seek predicate is the forward predicate at
the target, with row-id bound 0. -/
theorem seekAllowed_after_seek_forward (s : SqliteStorage) (ts : Int)
    (hdir : s.read_order_.reverse = false) :
    (s.seek ts).seekAllowed = seekAllowedForward ts 0 := by
  funext r
  simp [SqliteStorage.seekAllowed, SqliteStorage.seek, hdir]

/-- After a reverse seek the active seek predicate is the reverse predicate at
the target, with the last row id as the inclusive bound. -/
theorem seekAllowed_after_seek_reverse (s : SqliteStorage) (ts : Int)
    (hdir : s.read_order_.reverse = true) :
    (s.seek ts).seekAllowed = seekAllowedReverse ts s.get_last_rowid := by
  funext r
  simp [SqliteStorage.seekAllowed, SqliteStorage.seek, hdir]

/-- C3: after `seek(Ts)` in forward order, the first replayed message has
timestamp ≥ Ts, no message with timestamp < Ts is ever returned in that read
session, the session is complete (every joined row passing the topic filter
with timestamp ≥ Ts is in the query) and sorted by (timestamp, id) ascending;
in reverse order the regenerated query consists of exactly the rows with
timestamp ≤ Ts, sorted by (timestamp, id) descending, so it starts at the
first message with timestamp ≤ Ts under the row-id tie-break. -/
theorem seek_semantics (s : SqliteStorage) (ts : Int) :
    (s.read_order_.reverse = false →
      (∀ m ∈ replay (s.seek ts), ts ≤ m.time_stamp)
      ∧ (∀ r, (generateQuery (s.seek ts)).head? = some r → ts ≤ r.timestamp)
      ∧ (∀ r ∈ joinRows s, topicAllowed s.storage_filter_ r = true → ts ≤ r.timestamp →
          r ∈ generateQuery (s.seek ts))
      ∧ (generateQuery (s.seek ts)).Sorted fwdLE)
    ∧ (s.read_order_.reverse = true →
      (∀ m ∈ replay (s.seek ts), m.time_stamp ≤ ts)
      ∧ (∀ r ∈ joinRows s, topicAllowed s.storage_filter_ r = true → r.timestamp ≤ ts →
          r ∈ generateQuery (s.seek ts))
      ∧ (generateQuery (s.seek ts)).Sorted revLE) := by
  have hrep : replay (s.seek ts) = (generateQuery (s.seek ts)).map rowToMessage :=
    replay_of_not_prepared rfl
  constructor
  · intro hdir
    have hsa := seekAllowed_after_seek_forward s ts hdir
    have hall : ∀ r ∈ generateQuery (s.seek ts), ts ≤ r.timestamp := by
      intro r hr
      obtain ⟨_, _, hsk⟩ := mem_generateQuery.mp hr
      rw [hsa] at hsk
      simp only [seekAllowedForward, Bool.or_eq_true, Bool.and_eq_true, beq_iff_eq,
        decide_eq_true_eq] at hsk
      rcases hsk with ⟨he, _⟩ | hlt
      · exact le_of_eq he.symm
      · exact le_of_lt hlt
    refine ⟨?_, ?_, ?_, ?_⟩
    · intro m hm
      rw [hrep] at hm
      obtain ⟨r, hr, rfl⟩ := List.mem_map.mp hm
      exact hall r hr
    · intro r hh
      cases hq : generateQuery (s.seek ts) with
      | nil => rw [hq] at hh; cases hh
      | cons a l =>
        rw [hq] at hh
        obtain rfl := Option.some.inj hh
        apply hall
        rw [hq]
        exact List.mem_cons_self _ _
    · intro r hj hta hts2
      apply mem_generateQuery.mpr
      refine ⟨hj, hta, ?_⟩
      rw [hsa]
      simp only [seekAllowedForward, Bool.or_eq_true, Bool.and_eq_true, beq_iff_eq,
        decide_eq_true_eq]
      rcases lt_or_eq_of_le hts2 with h | h
      · exact Or.inr h
      · exact Or.inl ⟨h.symm, Nat.zero_le _⟩
    · unfold generateQuery
      rw [show (s.seek ts).read_order_.reverse = false from hdir]
      simp only [Bool.false_eq_true, if_false]
      exact List.sorted_insertionSort fwdLE _
  · intro hdir
    have hsa := seekAllowed_after_seek_reverse s ts hdir
    refine ⟨?_, ?_, ?_⟩
    · intro m hm
      rw [hrep] at hm
      obtain ⟨r, hr, rfl⟩ := List.mem_map.mp hm
      obtain ⟨_, _, hsk⟩ := mem_generateQuery.mp hr
      rw [hsa] at hsk
      simp only [seekAllowedReverse, Bool.or_eq_true, Bool.and_eq_true, beq_iff_eq,
        decide_eq_true_eq] at hsk
      rcases hsk with ⟨he, _⟩ | hlt
      · exact le_of_eq he
      · exact le_of_lt hlt
    · intro r hj hta hts2
      apply mem_generateQuery.mpr
      refine ⟨hj, hta, ?_⟩
      rw [hsa]
      simp only [seekAllowedReverse, Bool.or_eq_true, Bool.and_eq_true, beq_iff_eq,
        decide_eq_true_eq]
      rcases lt_or_eq_of_le hts2 with h | h
      · exact Or.inr h
      · exact Or.inl ⟨h, mem_joinRows_id_le hj⟩
    · unfold generateQuery
      rw [show (s.seek ts).read_order_.reverse = true from hdir]
      simp only [if_true]
      exact List.sorted_insertionSort revLE _

/-- C3 witness: on the concrete tied store, after `seek 4` in forward order
every replayed message has timestamp ≥ 4. -/
theorem seek_semantics_witness :
    exStoreTies.read_order_.reverse = false
    ∧ ∀ m ∈ replay (exStoreTies.seek 4), (4 : Int) ≤ m.time_stamp :=
  ⟨rfl, ((seek_semantics exStoreTies 4).1 rfl).1⟩

/-- A freshly opened brand-new store (the result of `openStoreDefault` on an
empty file). -/
def exFreshOpen : SqliteStorage :=
  { database_ := some { uri := "bag.db3" }, db_schema_version_ := kDBSchemaVersion_ }

/-- A message carrying a negative (pre-epoch) timestamp. -/
def exMsgNeg : SerializedBagMessage :=
  { topic_name := "/scan", time_stamp := -1, serialized_data := [42] }

/-- The store after creating the topic and writing the negative-timestamp
message. -/
def exAfterNeg : SqliteStorage :=
  ((exFreshOpen.create_topic exTopicA).write exMsgNeg).toOption.getD {}

/-- C1 counterexample: on a freshly opened store the read query always applies
the seek predicate with the initial seek position from the header
(`seek_time_ = 0`, `seek_row_id_ = 0`), so a message written with timestamp -1
is never returned by a subsequent full replay with no filter in forward order —
the write/read round-trip fails as stated. -/
theorem write_read_roundtrip_counterexample :
    SqliteStorage.openStoreDefault { uri := "bag.db3" } = Except.ok exFreshOpen
    ∧ (exFreshOpen.create_topic exTopicA).write exMsgNeg = Except.ok exAfterNeg
    ∧ exAfterNeg.storage_filter_.topics = []
    ∧ exAfterNeg.read_order_.reverse = false
    ∧ replay exAfterNeg = []
    ∧ exMsgNeg ∉ replay exAfterNeg := by decide

/-- C1 (amended): writing a message with payload P, topic T and timestamp
Ts ≥ 0 (at or after the current seek position of the reader, which the header
initializes to timestamp 0, row id 0) into an open store whose topic cache
resolves T to a topic row named T, then replaying in forward order with no
filter, returns a message whose payload, topic name and timestamp are
identical to P, T and Ts. -/
theorem write_read_roundtrip (s : SqliteStorage) (m : SerializedBagMessage)
    (s2 : SqliteStorage) (tid : Nat) (row : TopicRow)
    (hcache : lookupTopicId s.topics_ m.topic_name = some tid)
    (hw : s.write m = Except.ok s2)
    (hrow : s.topics_table.find? (fun u => u.id == tid) = some row)
    (hname : row.name = m.topic_name)
    (hts : 0 ≤ m.time_stamp)
    (hseek : s.seek_time_ = 0)
    (hseekrow : s.seek_row_id_ = 0)
    (hfilter : s.storage_filter_.topics = [])
    (hord : s.read_order_.reverse = false)
    (hstmt : s.read_statement_ = false) :
    m ∈ replay s2 := by
  simp only [SqliteStorage.write, hcache] at hw
  obtain rfl := Except.ok.inj hw
  simp only [replay, SqliteStorage.prepare_for_reading, hstmt, Bool.false_eq_true, if_false]
  apply List.mem_map.mpr
  refine ⟨{ data := m.serialized_data, timestamp := m.time_stamp,
            topic_name := row.name, id := s.next_message_id }, ?_, ?_⟩
  · apply mem_generateQuery.mpr
    refine ⟨?_, ?_, ?_⟩
    · show _ ∈ (s.messages_table ++ [_]).filterMap _
      rw [List.filterMap_append]
      apply List.mem_append_right
      simp [hrow]
    · simp [topicAllowed, hfilter]
    · show (if s.read_order_.reverse then _ else _) = true
      rw [hord]
      simp only [Bool.false_eq_true, if_false, seekAllowedForward, hseek, hseekrow,
        Bool.or_eq_true, Bool.and_eq_true, beq_iff_eq, decide_eq_true_eq]
      rcases lt_or_eq_of_le hts with h | h
      · exact Or.inr h
      · exact Or.inl ⟨h.symm, Nat.zero_le _⟩
  · simp only [rowToMessage]
    rw [hname]

/-- A message with a nonnegative timestamp for the round-trip run. -/
def exMsgPos : SerializedBagMessage :=
  { topic_name := "/scan", time_stamp := 7, serialized_data := [1, 2] }

/-- The freshly opened store with the `"/scan"` topic created. -/
def exWriter : SqliteStorage := exFreshOpen.create_topic exTopicA

/-- The store after writing the nonnegative-timestamp message. -/
def exAfterPos : SqliteStorage := ((exWriter.write exMsgPos).toOption).getD {}

/-- C1 witness: the concrete nonnegative-timestamp message written into the
fresh store is returned by the subsequent full forward replay. -/
theorem write_read_roundtrip_witness :
    exWriter.write exMsgPos = Except.ok exAfterPos ∧ exMsgPos ∈ replay exAfterPos :=
  ⟨by decide,
    write_read_roundtrip exWriter exMsgPos exAfterPos 1
      { id := 1, name := "/scan", type := "sensor_msgs/LaserScan",
        serialization_format := "cdr" }
      (by decide) (by decide) (by decide) (by decide) (by decide) (by decide)
      (by decide) (by decide) (by decide) (by decide)⟩
